import Mathlib

set_option maxRecDepth 10000

/-!
Shallow embedding of the core of `src/app.py` (a Flask demo shop):
the quote calculator `calculate_estimated_quote` and the order store
operations performed by the `/order` and `/payment/<order_id>` routes.

Numeric model.  The Python code computes with IEEE doubles
(`base_price *= 1.25`, `*= 1.10`, `+= 1500`, `round(base_price / 500)`).
We model the arithmetic over `ℚ`.  This is faithful because every value
the program can actually reach is computed exactly by the doubles:
the base prices are the integers {8000, 15000, 5000, 2000, 7500};
multiplication by 1.25 = 5/4 is exact on them; for each base `b`,
`b * (1.1 : double)` rounds to the exact integer `b * 11 / 10`
(the error `b * (1.1_double - 11/10)` is below half an ulp at every one
of the five products 8800, 16500, 5500, 2200, 8250); adding 1500 is
exact; and `x / 500` either is exactly representable (in particular at
every half-integer quotient 37.5, 16.5, 40.5, 19.5, 15.5, 12.5 that the
program can reach) or lies far from a tie, so `round` is unaffected by
the final rounding of the division.  Python's `round` on a float uses
round-half-to-even, which `roundHalfEven` reproduces on `ℚ`.
String case-folding (`.lower()`, `.title()`) is modelled on ASCII,
which covers every string the embedded logic compares against.
-/

/-- Round-half-to-even on rationals: the semantics of Python's built-in
`round` applied to a float, restricted to the exactly-represented values
this program reaches. -/
def roundHalfEven (q : ℚ) : ℤ :=
  if q - (⌊q⌋ : ℚ) < 1/2 then ⌊q⌋
  else if q - (⌊q⌋ : ℚ) > 1/2 then ⌊q⌋ + 1
  else if ⌊q⌋ % 2 = 0 then ⌊q⌋ else ⌊q⌋ + 1

/-- True when the list `n` is an initial segment of `h`. -/
def startsWithList : List Char → List Char → Bool
  | [], _ => true
  | _ :: _, [] => false
  | n :: ns, h :: hs => n = h && startsWithList ns hs

/-- True when `needle` occurs as a contiguous sublist of the second
list: the model of Python's `needle in haystack` on strings. -/
def occursInList (needle : List Char) : List Char → Bool
  | [] => needle.isEmpty
  | c :: hs => startsWithList needle (c :: hs) || occursInList needle hs

/-- Python's `needle in haystack` substring test. -/
def substrContains (needle haystack : String) : Bool :=
  occursInList needle.toList haystack.toList

/-- Python's `str.lower()`, modelled character-wise on ASCII. -/
def pyLower (s : String) : String :=
  String.mk (s.toList.map Char.toLower)

/-- The price accumulated by `calculate_estimated_quote` (src/app.py,
lines 64-87) before the final rounding: base price by project type,
then the complexity multiplier chosen by description length, then the
flat rush fee when the timeline contains "urgent" case-insensitively.
`timeline` is `Option String` because the route passes `None` through;
`(timeline or "")` is `timeline.getD ""`. -/
def preRoundPrice (project_type description : String)
    (timeline : Option String) : ℚ :=
  let base_price : ℚ :=
    if project_type = "website" then 8000
    else if project_type = "software" then 15000
    else if project_type = "it_solution" then 5000
    else if project_type = "consultation" then 2000
    else 7500
  let base_price :=
    if description.length > 500 then base_price * (1.25 : ℚ)
    else if description.length > 250 then base_price * (1.10 : ℚ)
    else base_price
  if substrContains "urgent" (pyLower (timeline.getD ""))
  then base_price + 1500
  else base_price

/-- The quote calculator `calculate_estimated_quote` (src/app.py,
lines 60-90): the accumulated price rounded by
`round(base_price / 500) * 500`. -/
def calculate_estimated_quote (project_type description : String)
    (timeline : Option String) : ℤ :=
  roundHalfEven (preRoundPrice project_type description timeline / 500) * 500

/-! ### Spec-side formulation of the quote algorithm (section 4.1 of the
spec), for the refinement claim: base price by exact lookup, a single
complexity multiplier chosen by description length, a flat rush
surcharge added after the multiplier, then rounding to a multiple
of 500. -/

/-- Spec step 1: base price by project type, exact lookup table. -/
def base_price_table (project_type : String) : ℚ :=
  if project_type = "website" then 8000
  else if project_type = "software" then 15000
  else if project_type = "it_solution" then 5000
  else if project_type = "consultation" then 2000
  else 7500

/-- Spec step 2: complexity multiplier by description length
(`> 500 → 1.25`, `(250, 500] → 1.10`, `≤ 250 → 1`). -/
def complexity_multiplier (len : Nat) : ℚ :=
  if len > 500 then 1.25
  else if len > 250 then 1.10
  else 1

/-- Spec step 3: flat 1500 rush surcharge when the timeline contains
"urgent" case-insensitively, 0 otherwise. -/
def rush_surcharge (timeline : Option String) : ℚ :=
  if substrContains "urgent" (pyLower (timeline.getD "")) then 1500 else 0

/-- Spec step 4: round to the nearest multiple of 500 via
`round(price / 500) * 500`. -/
def round_to_nearest_500 (price : ℚ) : ℤ :=
  roundHalfEven (price / 500) * 500

/-- The quote algorithm as the spec phrases it: multiplier before
surcharge, surcharge before rounding. -/
def compute_quote_spec (project_type description : String)
    (timeline : Option String) : ℤ :=
  round_to_nearest_500
    (base_price_table project_type * complexity_multiplier description.length
      + rush_surcharge timeline)

/-! ### The order store

The `orders` table is modelled as a list of rows; `get_order` is the
`SELECT ... WHERE order_id = ?` of `handle_payment_route`,
`create_order` is the `INSERT` of `order_briefing`, and
`handle_payment_post` is the `POST` branch of `handle_payment_route`
(`UPDATE orders SET status = ?, payment_method = ? WHERE order_id = ?`).
The nondeterministic `uuid`-derived order key is passed in as an
argument. -/

/-- One row of the `orders` table (column list as in the INSERT of
src/app.py line 167 plus `payment_method`, which the INSERT leaves
NULL). -/
structure OrderRow where
  order_id : String
  project_type : String
  client_email : String
  description : String
  quote : ℤ
  status : String
  budget : Option String
  timeline : Option String
  payment_method : Option String
deriving DecidableEq, Repr

/-- The `orders` table. -/
abbrev OrderStore : Type := List OrderRow

/-- Exact-match lookup by `order_id`: the `SELECT ... WHERE order_id = ?`
followed by `fetchone()` (src/app.py, lines 194-198). -/
def get_order (store : OrderStore) (order_id : String) : Option OrderRow :=
  List.find? (fun o => o.order_id == order_id) store

/-- The `INSERT INTO orders` of `order_briefing` (src/app.py, lines
166-170): a new row with the given fields, status `PENDING` and
`payment_method` NULL.  A duplicate `order_id` violates the primary key
and the insert fails (`none`); the row list is extended otherwise. -/
def create_order (store : OrderStore) (order_key project_type client_email
    description : String) (quote : ℤ) (budget timeline : Option String) :
    Option OrderStore :=
  if (get_order store order_key).isSome then none
  else some (List.append store
    [{ order_id := order_key, project_type := project_type,
       client_email := client_email, description := description,
       quote := quote, status := "PENDING", budget := budget,
       timeline := timeline, payment_method := none }])

/-- Python's `str.replace('_', ' ')` for the single-character pattern. -/
def pyReplaceUnderscores (s : String) : String :=
  String.mk (s.toList.map (fun c => if c = '_' then ' ' else c))

/-- Python's `str.title()` on ASCII: the first letter of every
letter-run is uppercased, the rest are lowercased, other characters are
unchanged.  The boolean accumulator records whether the previous
character was a letter. -/
def pyTitle (s : String) : String :=
  String.mk (s.toList.foldl
    (fun (acc : List Char × Bool) c =>
      if c.isAlpha then
        (acc.1 ++ [if acc.2 then c.toLower else c.toUpper], true)
      else (acc.1 ++ [c], false))
    ([], false)).1

/-- The display normalization applied to `project_type` before storage:
`project_type_raw.replace('_', ' ').title()` (src/app.py, line 169). -/
def normalize_project_type (s : String) : String :=
  pyTitle (pyReplaceUnderscores s)

/-- The submitted order form: `request.form.get` returns `None` for a
missing field. -/
structure OrderForm where
  email : Option String
  project_type : Option String
  budget : Option String
  timeline : Option String
  description : Option String

/-- The `POST` branch of `order_briefing` (src/app.py, lines 146-179):
validate presence of email, project type and description (Python
truthiness: `None` and `""` both fail `all([...])`), compute the quote
from the raw project type, and insert the row with the normalized
project type.  Returns the new store and the order id on success. -/
def order_briefing_post (store : OrderStore) (form : OrderForm)
    (order_key : String) : Option (OrderStore × String) :=
  match form.email, form.project_type, form.description with
  | some email, some project_type_raw, some description =>
    if email = "" ∨ project_type_raw = "" ∨ description = "" then none
    else
      match create_order store order_key
          (normalize_project_type project_type_raw) email description
          (calculate_estimated_quote project_type_raw description
            form.timeline)
          form.budget form.timeline with
      | some store2 => some (store2, order_key)
      | none => none
  | _, _, _ => none

/-- Outcome of the payment-confirmation flow. -/
inductive PayOutcome where
  | paid
  | notFound
deriving DecidableEq, Repr

/-- The `POST` branch of `handle_payment_route` (src/app.py, lines
190-213): fetch the order; when absent, redirect with no write; when
present, read `payment_method` from the form with default `'N/A'` and
run `UPDATE orders SET status = 'PAID', payment_method = ? WHERE
order_id = ?`.  Returns the outcome together with the store after the
request. -/
def handle_payment_post (store : OrderStore) (order_id : String)
    (form_payment_method : Option String) : PayOutcome × OrderStore :=
  match get_order store order_id with
  | none => (PayOutcome.notFound, store)
  | some _ =>
    let payment_method := form_payment_method.getD "N/A"
    (PayOutcome.paid,
      List.map (fun o =>
        if o.order_id == order_id then
          { o with status := "PAID", payment_method := some payment_method }
        else o) store)

/-- The `mark_paid(order_id, payment_method)` operation of the spec: a
payment-confirmation request that does carry a payment method. -/
def mark_paid (store : OrderStore) (order_id payment_method : String) :
    PayOutcome × OrderStore :=
  handle_payment_post store order_id (some payment_method)

/-- A description of exactly 300 characters, used as a concrete input
in the medium-complexity tier. -/
def descMedium : String := String.mk (List.replicate 300 'x')

/-- A description of exactly 600 characters, used as a concrete input
in the high-complexity tier. -/
def descLong : String := String.mk (List.replicate 600 'x')

/-- A concrete stored row used in witnesses for the store operations. -/
def sampleRow : OrderRow :=
  { order_id := "AB12CD34", project_type := "Website",
    client_email := "a@b.c", description := "hello", quote := 8000,
    status := "PENDING", budget := none, timeline := none,
    payment_method := none }

/-- The row that `order_briefing_post` inserts for a small
`it_solution` order, used in a witness. -/
def sampleRow2 : OrderRow :=
  { order_id := "AB12CD34",
    project_type := normalize_project_type "it_solution",
    client_email := "a@b.c", description := "hello",
    quote := calculate_estimated_quote "it_solution" "hello" none,
    status := "PENDING", budget := none, timeline := none,
    payment_method := none }

/-! ### Helper lemmas -/

/-- The accumulated price of the code decomposes exactly into the
spec's pipeline: base price times multiplier plus surcharge. -/
theorem preRoundPrice_decompose (project_type description : String)
    (timeline : Option String) :
    preRoundPrice project_type description timeline =
      base_price_table project_type * complexity_multiplier description.length
        + rush_surcharge timeline := by
  unfold preRoundPrice base_price_table complexity_multiplier rush_surcharge
  split_ifs <;> ring

/-- Rounding a value that is exactly halfway between two integers picks
the even neighbour. -/
theorem roundHalfEven_add_half (k : ℤ) :
    roundHalfEven ((k : ℚ) + 1/2) = if k % 2 = 0 then k else k + 1 := by
  unfold roundHalfEven
  have hf : ⌊(k : ℚ) + 1/2⌋ = k := by
    rw [add_comm, Int.floor_add_int]
    norm_num
  rw [hf]
  have hr : ((k : ℚ) + 1/2) - k = 1/2 := by ring
  rw [hr]
  norm_num

/-- The medium description has 300 characters. -/
theorem descMedium_length : descMedium.length = 300 := by decide

/-- The long description has 600 characters. -/
theorem descLong_length : descLong.length = 600 := by decide

/-- An absent timeline triggers no rush surcharge. -/
theorem rush_surcharge_none : rush_surcharge none = 0 := by
  simp [rush_surcharge,
    show substrContains "urgent" (pyLower "") = false from by decide]

/-- The timeline "urgent delivery" triggers the rush surcharge. -/
theorem rush_surcharge_urgent_delivery :
    rush_surcharge (some "urgent delivery") = 1500 := by
  simp [rush_surcharge,
    show substrContains "urgent" (pyLower "urgent delivery") = true from by
      decide]

/-- An unrecognized project type with a 300-character description and no
timeline accumulates exactly 7500 · 1.10 = 8250 before rounding. -/
theorem preRound_branding_medium :
    preRoundPrice "branding" descMedium none = 8250 := by
  rw [preRoundPrice_decompose, descMedium_length, rush_surcharge_none]
  simp [base_price_table, complexity_multiplier]
  norm_num

/-- A successful insert makes the new row retrievable under its key,
with status `PENDING` and no payment method. -/
theorem create_order_sound (store : OrderStore)
    (k pt em d : String) (q : ℤ) (b t : Option String) (store2 : OrderStore)
    (h : create_order store k pt em d q b t = some store2) :
    get_order store2 k = some
      { order_id := k, project_type := pt, client_email := em,
        description := d, quote := q, status := "PENDING", budget := b,
        timeline := t, payment_method := none } := by
  unfold create_order at h
  split at h
  · exact absurd h (by simp)
  · rename_i hfresh
    have hnone : get_order store k = none := by
      cases hget : get_order store k with
      | none => rfl
      | some o => exact absurd (by rw [hget]; rfl) hfresh
    injection h with h2
    subst h2
    unfold get_order at hnone ⊢
    rw [show List.append store _ = store ++ _ from rfl, List.find?_append,
      hnone]
    simp

/-- When the order exists, the payment `POST` reports success and the
row afterwards differs from the old one exactly in `status` (now
`PAID`) and `payment_method` (the form value, default `'N/A'`). -/
theorem handle_payment_post_found (store : OrderStore) (oid : String)
    (fm : Option String) (o : OrderRow) (h : get_order store oid = some o) :
    (handle_payment_post store oid fm).1 = PayOutcome.paid ∧
      get_order (handle_payment_post store oid fm).2 oid = some
        { o with status := "PAID", payment_method := some (fm.getD "N/A") } := by
  have hfind : List.find? (fun r : OrderRow => r.order_id == oid) store
      = some o := h
  have hp := List.find?_some hfind
  constructor
  · simp only [handle_payment_post, h]
  · simp only [handle_payment_post, get_order, hfind, List.find?_map]
    have hcomp : ((fun r : OrderRow => r.order_id == oid) ∘
        (fun r : OrderRow => if r.order_id == oid then { r with status := "PAID", payment_method := some (fm.getD "N/A") } else r))
        = (fun r : OrderRow => r.order_id == oid) := by
      funext r
      by_cases hc : r.order_id = oid <;> simp [hc]
    rw [hcomp, hfind]
    have hpe : o.order_id = oid := by simpa using hp
    simp [hpe]

/-! ### The claims -/

/-- C1: for every project type, description and timeline (possibly
null), `calculate_estimated_quote` follows the specified algorithm in
the specified order: base price by exact lookup, then a single
complexity multiplier chosen by description length, then a flat 1500
rush surcharge added after the multiplier whenever the timeline
contains "urgent" case-insensitively, then rounding to a multiple
of 500. -/
theorem quote_follows_spec_pipeline (pt d : String) (t : Option String) :
    calculate_estimated_quote pt d t = compute_quote_spec pt d t := by
  unfold calculate_estimated_quote compute_quote_spec round_to_nearest_500
  rw [preRoundPrice_decompose]

/-- C2 counterexample: an unrecognized project type with a
300-character description and no timeline accumulates 8250 before
rounding, which is exactly halfway between 8000 and 8500; the code
returns 8000, the smaller multiple, not the larger one the claim
demands. -/
theorem rounding_not_half_up :
    preRoundPrice "branding" descMedium none = 500 * 16 + 250 ∧
    calculate_estimated_quote "branding" descMedium none = 500 * 16 ∧
    (500 * 16 : ℤ) ≠ 500 * (16 + 1) := by
  refine ⟨by rw [preRound_branding_medium]; norm_num, ?_, by decide⟩
  unfold calculate_estimated_quote
  rw [preRound_branding_medium]
  norm_num [roundHalfEven]

/-- C2 (amended): the final step rounds to the nearest multiple of 500
with ties going to the even neighbour (Python's `round` is
round-half-to-even): whenever the accumulated price lands exactly
halfway between two multiples of 500, the result is the multiple whose
quotient by 500 is even. -/
theorem rounding_half_to_even (pt d : String) (t : Option String) (k : ℤ)
    (h : preRoundPrice pt d t = 500 * (k : ℚ) + 250) :
    calculate_estimated_quote pt d t =
      (if k % 2 = 0 then 500 * k else 500 * (k + 1)) := by
  unfold calculate_estimated_quote
  rw [h]
  have h2 : (500 * (k : ℚ) + 250) / 500 = (k : ℚ) + 1/2 := by
    field_simp
    ring
  rw [h2, roundHalfEven_add_half]
  split_ifs <;> ring

/-- C2 witness: at the unrecognized project type with a 300-character
description, the accumulated price is 500·16 + 250 and the quote is
500·16 (16 is even). -/
theorem rounding_half_to_even_witness :
    preRoundPrice "branding" descMedium none = 500 * ((16 : ℤ) : ℚ) + 250 ∧
    calculate_estimated_quote "branding" descMedium none =
      (if (16 : ℤ) % 2 = 0 then 500 * 16 else 500 * (16 + 1)) := by
  have hp : preRoundPrice "branding" descMedium none
      = 500 * ((16 : ℤ) : ℚ) + 250 := by
    rw [preRound_branding_medium]
    norm_num
  exact ⟨hp, rounding_half_to_even "branding" descMedium none 16 hp⟩

/-- C3: a `software` project with a 600-character description and
timeline "urgent delivery" is quoted exactly 20000
(15000 · 1.25 + 1500 = 20250, rounded to 20000). -/
theorem quote_software_long_urgent :
    calculate_estimated_quote "software" descLong (some "urgent delivery")
      = 20000 := by
  unfold calculate_estimated_quote
  rw [preRoundPrice_decompose, descLong_length, rush_surcharge_urgent_delivery]
  simp [base_price_table, complexity_multiplier]
  norm_num [roundHalfEven]

/-- C4: every input whose accumulated pre-rounding price is 8250 is
quoted 8000. -/
theorem raw_8250_rounds_to_8000 (pt d : String) (t : Option String)
    (h : preRoundPrice pt d t = 8250) :
    calculate_estimated_quote pt d t = 8000 := by
  unfold calculate_estimated_quote
  rw [h]
  norm_num [roundHalfEven]

/-- C4 witness: the unrecognized project type with a 300-character
description and no timeline accumulates 8250 and is quoted 8000. -/
theorem raw_8250_rounds_to_8000_witness :
    preRoundPrice "branding" descMedium none = 8250 ∧
    calculate_estimated_quote "branding" descMedium none = 8000 :=
  ⟨preRound_branding_medium,
    raw_8250_rounds_to_8000 "branding" descMedium none
      preRound_branding_medium⟩

/-- C5: the quote calculator is total: for every project type,
description and timeline (possibly null) it returns an integer (in
fact a multiple of 500); in particular an unrecognized project type
with an empty description and no timeline is quoted the fallback
7500. -/
theorem quote_total_and_fallback :
    (∀ (pt d : String) (t : Option String),
      ∃ n : ℤ, calculate_estimated_quote pt d t = 500 * n) ∧
    calculate_estimated_quote "unknown_type" "" none = 7500 := by
  constructor
  · intro pt d t
    refine ⟨roundHalfEven (preRoundPrice pt d t / 500), ?_⟩
    unfold calculate_estimated_quote
    ring
  · unfold calculate_estimated_quote
    rw [preRoundPrice_decompose, rush_surcharge_none]
    simp [base_price_table, complexity_multiplier,
      show ("" : String).length = 0 from rfl]
    norm_num [roundHalfEven]

/-- C6: after a successful `create_order`, looking the returned id up
yields a record whose quote is the quote passed at creation, whose
status is `PENDING`, and whose payment method is unset. -/
theorem create_then_get (store : OrderStore) (k pt em d : String) (q : ℤ)
    (b t : Option String) (store2 : OrderStore)
    (h : create_order store k pt em d q b t = some store2) :
    (get_order store2 k).map (fun o => (o.quote, o.status, o.payment_method))
      = some (q, "PENDING", (none : Option String)) := by
  rw [create_order_sound store k pt em d q b t store2 h]
  rfl

/-- C6 witness: creating a concrete order in the empty store and
fetching it returns quote 8000, status `PENDING`, no payment method. -/
theorem create_then_get_witness :
    create_order [] "AB12CD34" "Website" "a@b.c" "hello" 8000 none none
      = some [sampleRow] ∧
    (get_order [sampleRow] "AB12CD34").map
        (fun o => (o.quote, o.status, o.payment_method))
      = some (8000, "PENDING", (none : Option String)) :=
  ⟨rfl, create_then_get [] "AB12CD34" "Website" "a@b.c" "hello" 8000
    none none [sampleRow] rfl⟩

/-- C7: marking an existing order paid reports success and the stored
row afterwards is the old row with status `PAID` and the given payment
method, every other field unchanged. -/
theorem mark_paid_updates (store : OrderStore) (oid method : String)
    (o : OrderRow) (h : get_order store oid = some o) :
    (mark_paid store oid method).1 = PayOutcome.paid ∧
      get_order (mark_paid store oid method).2 oid =
        some { o with status := "PAID", payment_method := some method } := by
  have hm := handle_payment_post_found store oid (some method) o h
  simpa [mark_paid] using hm

/-- C7 witness: marking the sample order paid by card. -/
theorem mark_paid_updates_witness :
    get_order [sampleRow] "AB12CD34" = some sampleRow ∧
    ((mark_paid [sampleRow] "AB12CD34" "card").1 = PayOutcome.paid ∧
      get_order (mark_paid [sampleRow] "AB12CD34" "card").2 "AB12CD34" =
        some { sampleRow with status := "PAID", payment_method := some "card" }) := by
  have hg : get_order [sampleRow] "AB12CD34" = some sampleRow := by decide
  exact ⟨hg, mark_paid_updates [sampleRow] "AB12CD34" "card" sampleRow hg⟩

/-- C8: marking a nonexistent order paid reports `notFound` and leaves
the store exactly as it was: no row is created and no row is
updated. -/
theorem mark_paid_missing (store : OrderStore) (oid method : String)
    (h : get_order store oid = none) :
    mark_paid store oid method = (PayOutcome.notFound, store) := by
  unfold mark_paid handle_payment_post
  rw [h]

/-- C8 witness: marking an order paid in the empty store. -/
theorem mark_paid_missing_witness :
    get_order [] "NOPE" = none ∧
    mark_paid [] "NOPE" "card" = (PayOutcome.notFound, []) :=
  ⟨rfl, mark_paid_missing [] "NOPE" "card" rfl⟩

/-- C9: a successfully created order stores the display-normalized
project type (underscores to spaces, title-cased) while its quote is
computed from the raw, non-normalized project type. -/
theorem stored_type_normalized_quote_raw (store : OrderStore)
    (email ptRaw desc : String) (b t : Option String) (k : String)
    (store2 : OrderStore) (oid : String)
    (h : order_briefing_post store
      { email := some email, project_type := some ptRaw, budget := b,
        timeline := t, description := some desc } k = some (store2, oid)) :
    (get_order store2 oid).map (fun o => (o.project_type, o.quote)) =
      some (normalize_project_type ptRaw,
        calculate_estimated_quote ptRaw desc t) := by
  unfold order_briefing_post at h
  dsimp only at h
  by_cases hvalid : email = "" ∨ ptRaw = "" ∨ desc = ""
  · rw [if_pos hvalid] at h
    cases h
  · rw [if_neg hvalid] at h
    cases hc : create_order store k (normalize_project_type ptRaw) email
        desc (calculate_estimated_quote ptRaw desc t) b t with
    | none => rw [hc] at h; cases h
    | some db2 =>
      rw [hc] at h
      injection h with h2
      injection h2 with hs ho
      subst hs
      subst ho
      rw [create_order_sound store k (normalize_project_type ptRaw) email
        desc (calculate_estimated_quote ptRaw desc t) b t db2 hc]
      rfl

/-- C9 witness: a small `it_solution` order stores project type
"It Solution" while its quote is computed from the raw key
`it_solution`. -/
theorem stored_type_normalized_quote_raw_witness :
    order_briefing_post []
      { email := some "a@b.c", project_type := some "it_solution",
        budget := none, timeline := none, description := some "hello" }
      "AB12CD34" = some ([sampleRow2], "AB12CD34") ∧
    (get_order [sampleRow2] "AB12CD34").map
        (fun o => (o.project_type, o.quote)) =
      some (normalize_project_type "it_solution",
        calculate_estimated_quote "it_solution" "hello" none) :=
  ⟨rfl, stored_type_normalized_quote_raw [] "a@b.c" "it_solution" "hello"
    none none "AB12CD34" [sampleRow2] "AB12CD34" rfl⟩

/-- C10: a payment-confirmation request for an existing order that
omits the payment method still transitions the order to `PAID`, and
records the literal string "N/A" as the payment method. -/
theorem payment_without_method_records_na (store : OrderStore)
    (oid : String) (o : OrderRow) (h : get_order store oid = some o) :
    (handle_payment_post store oid none).1 = PayOutcome.paid ∧
      get_order (handle_payment_post store oid none).2 oid =
        some { o with status := "PAID", payment_method := some "N/A" } := by
  simpa using handle_payment_post_found store oid none o h

/-- C10 witness: confirming payment for the sample order with no
payment method in the form. -/
theorem payment_without_method_records_na_witness :
    get_order [sampleRow] "AB12CD34" = some sampleRow ∧
    ((handle_payment_post [sampleRow] "AB12CD34" none).1 = PayOutcome.paid ∧
      get_order (handle_payment_post [sampleRow] "AB12CD34" none).2
          "AB12CD34" =
        some { sampleRow with status := "PAID", payment_method := some "N/A" }) := by
  have hg : get_order [sampleRow] "AB12CD34" = some sampleRow := by decide
  exact ⟨hg,
    payment_without_method_records_na [sampleRow] "AB12CD34" sampleRow hg⟩
